import Mathlib

/-!
Verification of the download-plan derivation and retry-orchestration core of
hfd.py against its specification.  The Python source is shallowly embedded:
each function of the source is translated into an executable Lean definition
with the same name, file-system and subprocess effects are made explicit
(directory state records, exit-code streams), and the claims of the
specification are settled as theorems about those definitions.
-/

/- ### Pattern Matcher (hfd.py, generate_file_list lines 134-135, 143-144)

The source compiles a pattern list into one Python regex:
for each pattern it runs re.escape and then replaces every escaped star
with a dot-star, and joins the per-pattern regexes with the alternation
bar; matching is re.search (unanchored).  After re.escape every character
of the pattern other than the star is a literal, so a single pattern
matches a path iff its star-separated literal segments occur in the path
in order, and the alternation matches iff some pattern of the list does.
The embedding below implements exactly that segment semantics (the
dot-star is modelled as matching any substring). -/

/-- Splits a pattern at each star character into its literal segments.
splitStar of an empty list is the single empty segment, mirroring the fact
that an empty pattern compiles to an empty regex. -/
def splitStar : List Char → List (List Char)
  | [] => [[]]
  | c :: cs =>
    let r := splitStar cs
    if c = '*' then [] :: r
    else
      match r with
      | [] => [[c]]
      | s :: rest => (c :: s) :: rest

/-- Finds the leftmost occurrence of sub in l and returns the remainder of l
after that occurrence, or none when sub does not occur.  This is the
semantics of searching for a literal inside a string. -/
def findDrop (sub : List Char) : List Char → Option (List Char)
  | [] => if sub = [] then some [] else none
  | c :: cs =>
    if sub.isPrefixOf (c :: cs) then some ((c :: cs).drop sub.length)
    else findDrop sub cs

/-- Matches a sequence of literal segments against a character list in order,
each segment strictly after the previous one, with arbitrary gaps: the
unanchored search semantics of the regex seg0 dot-star seg1 dot-star ... .
Greedy leftmost placement of each literal segment is complete for this
language, so the function is a faithful decision procedure for it. -/
def segsSearch : List (List Char) → List Char → Bool
  | [], _ => true
  | s :: rest, l =>
    match findDrop s l with
    | none => false
    | some l2 => segsSearch rest l2

/-- One glob-like pattern matched against a path: the embedding of
re.search applied to re.escape of the pattern with each escaped star
replaced by dot-star (hfd.py line 134). -/
def globSearch (pat p : String) : Bool :=
  segsSearch (splitStar pat.data) p.data

/-- Whether some pattern of the list matches the path: the embedding of
re.search applied to the bar-joined alternation of the compiled patterns. -/
def anyPatternMatches (pats : List String) (p : String) : Bool :=
  pats.any (fun pat => globSearch pat p)

/-- Whether the regex compiled from the pattern list is the empty string.
The source sets the regex to the empty string when the pattern list is
empty (the Python conditional expression on lines 134-135), and the joined
escaped regex is also empty when the list is exactly one empty pattern;
Python then treats the empty regex as falsy in the selection test. -/
def compiledEmpty (pats : List String) : Bool :=
  match pats with
  | [] => true
  | [p] => p = ""
  | _ => false

/-- File selection exactly as in hfd.py lines 143-144: the path is kept iff
(the include regex is falsy or matches) and (the exclude regex is falsy or
does not match). -/
def selectFile (inc exc : List String) (p : String) : Bool :=
  (compiledEmpty inc || anyPatternMatches inc p) &&
  (compiledEmpty exc || !(anyPatternMatches exc p))

/-- The selection predicate exactly as the specification words it: selected
iff (the include list is empty or some include pattern matches) and not
(the exclude list is non-empty and some exclude pattern matches). -/
def selectSpec (inc exc : List String) (p : String) : Bool :=
  (inc.isEmpty || anyPatternMatches inc p) &&
  !(!exc.isEmpty && anyPatternMatches exc p)

/-- The amended selection predicate: a pattern list consisting of exactly
one empty pattern compiles to an empty regex and is therefore treated the
same as an absent list, on the include side and on the exclude side alike. -/
def selectAmended (inc exc : List String) (p : String) : Bool :=
  (decide (inc = []) || decide (inc = [""]) || anyPatternMatches inc p) &&
  !(decide (exc ≠ []) && decide (exc ≠ [""]) && anyPatternMatches exc p)

/- ### Invocation fingerprint (hfd.py, generate_command_string lines 68-79) -/

/-- The command-line parameters that generate_command_string reads.  The two
optional fields model argparse options that default to Python None. -/
structure Args where
  repo_id : String
  tool : String
  incl : List String
  excl : List String
  dataset : Bool
  hf_username : Option String
  hf_token : Option String
  hf_endpoint : String
  revision : String
deriving DecidableEq

/-- Python coercion used by the source, x or the empty string: None becomes
the empty string, and the empty string stays the empty string. -/
def orEmpty : Option String → String
  | none => ""
  | some s => s

/-- Python space-join of a list of strings. -/
def joinSpace : List String → String
  | [] => ""
  | [s] => s
  | s :: t :: rest => s ++ " " ++ joinSpace (t :: rest)

/-- The nine serialized fields of the fingerprint, in source order
(hfd.py lines 69-79). -/
def commandFields (a : Args) : List String :=
  [ "REPO_ID=" ++ a.repo_id,
    "TOOL=" ++ a.tool,
    "INCLUDE_PATTERNS=" ++ joinSpace a.incl,
    "EXCLUDE_PATTERNS=" ++ joinSpace a.excl,
    "DATASET=" ++ (if a.dataset then "1" else "0"),
    "HF_USERNAME=" ++ orEmpty a.hf_username,
    "HF_TOKEN=" ++ orEmpty a.hf_token,
    "HF_ENDPOINT=" ++ a.hf_endpoint,
    "REVISION=" ++ a.revision ]

/-- The invocation fingerprint: the space-join of the nine serialized
fields, exactly as hfd.py lines 68-79 build it. -/
def generate_command_string (a : Args) : String :=
  joinSpace (commandFields a)

/- ### Plan Invalidator (hfd.py, should_regenerate_filelist lines 111-129) -/

/-- ASCII whitespace recognised by Python str.strip (the embedding models
the ASCII whitespace characters; fingerprints are ASCII text). -/
def pyWs (c : Char) : Bool :=
  c = ' ' || c = '\t' || c = '\n' || c = '\r' || c = '\x0b' || c = '\x0c'

/-- Python str.strip with no argument: drop whitespace from both ends. -/
def pyStrip (s : String) : String :=
  String.mk (((s.data.dropWhile pyWs).reverse.dropWhile pyWs).reverse)

/-- The part of the working directory that should_regenerate_filelist reads
and writes: the content of the last_download_command record (none when the
file does not exist) and whether the tool-specific plan file exists. -/
structure DirState where
  commandFile : Option String
  planFileExists : Bool
deriving DecidableEq

/-- The empty working directory of a first run: no fingerprint record and
no plan file. -/
def freshState : DirState :=
  { commandFile := none, planFileExists := false }

/-- hfd.py lines 111-129, statement by statement: when the plan file or the
record is missing, write the current fingerprint and return true; otherwise
read the record, strip it, and on a mismatch rewrite the record and return
true, else return false leaving the directory untouched. -/
def should_regenerate_filelist (current : String) (st : DirState) :
    Bool × DirState :=
  if !st.planFileExists || st.commandFile.isNone then
    (true, { st with commandFile := some current })
  else
    let saved := pyStrip (st.commandFile.getD "")
    if current ≠ saved then (true, { st with commandFile := some current })
    else (false, st)

/-- The plan phase of main (hfd.py lines 244-250): run the invalidator and,
when it returns true, delete and regenerate the plan file (so afterwards the
plan file exists).  The fingerprint record is persisted inside
should_regenerate_filelist, hence before the plan is generated. -/
def planPhase (current : String) (st : DirState) : Bool × DirState :=
  let r := should_regenerate_filelist current st
  if r.1 then (true, { r.2 with planFileExists := true })
  else (false, r.2)

/- ### Plan Generator (hfd.py, generate_file_list lines 131-158) -/

/-- One sibling entry of the repository manifest: the relative file path
(absent when the JSON object has no rfilename key) and the optional
declared byte size. -/
structure Sibling where
  rfilename : Option String
  size : Option Nat
deriving DecidableEq

/-- The parsed repository manifest: the gated flag and the ordered sibling
list. -/
structure Manifest where
  gated : Bool
  siblings : List Sibling
deriving DecidableEq

/-- Python os.path.basename: the maximal slash-free suffix of the path. -/
def basename (s : String) : String :=
  String.mk ((s.data.reverse.takeWhile (fun c => c ≠ '/')).reverse)

/-- Python os.path.dirname: everything up to the last slash, with trailing
slashes stripped unless the head consists only of slashes. -/
def dirname (s : String) : String :=
  let head := (s.data.reverse.dropWhile (fun c => c ≠ '/')).reverse
  if head ≠ [] ∧ ¬ (head.all (fun c => c = '/')) then
    String.mk ((head.reverse.dropWhile (fun c => c = '/')).reverse)
  else String.mk head

/-- The settings of generate_file_list that main derives from the parsed
options (hfd.py lines 211-229). -/
structure PlanArgs where
  hf_endpoint : String
  download_api_path : String
  revision : String
  hf_token : Option String
  tool : String
  incl : List String
  excl : List String
deriving DecidableEq

/-- The resolve URL written for one selected file
(hfd.py line 149). -/
def resolveUrl (a : PlanArgs) (file : String) : String :=
  a.hf_endpoint ++ "/" ++ a.download_api_path ++ "/resolve/" ++ a.revision
    ++ "/" ++ file

/-- The text written to the plan file for one selected file, in the order
of the write calls on hfd.py lines 150-158: for the aria2c tool the URL
line, the dir line, the out line, the header line when the token is truthy,
and a blank separator line; for the wget tool just the URL line. -/
def entryLines (a : PlanArgs) (file : String) : String :=
  if a.tool = "aria2c" then
    resolveUrl a file ++ "\n"
      ++ "  dir=" ++ dirname file ++ "\n"
      ++ "  out=" ++ basename file ++ "\n"
      ++ (if orEmpty a.hf_token ≠ "" then
            "  header=Authorization: Bearer " ++ orEmpty a.hf_token ++ "\n"
          else "")
      ++ "\n"
  else resolveUrl a file ++ "\n"

/-- The rfilename extraction of hfd.py line 139: a sibling contributes its
rfilename iff the key is present and the value is truthy, that is,
non-empty. -/
def siblingName (s : Sibling) : Option String :=
  match s.rfilename with
  | none => none
  | some f => if f = "" then none else some f

/-- The full content of the plan file produced by the structured branch of
generate_file_list (hfd.py lines 138-158): extract the truthy rfilenames in
manifest order, filter them with the selection predicate of lines 143-144,
and append the per-file text inside the write loop. -/
def generate_file_list (a : PlanArgs) (m : Manifest) : String :=
  let files := m.siblings.filterMap siblingName
  let filtered := files.filter (fun f => selectFile a.incl a.excl f)
  filtered.foldl (fun acc file => acc ++ entryLines a file) ""

/-- Concatenation of a list of strings, used to state the plan content the
way the specification does: one block of text per plan entry. -/
def strConcat : List String → String
  | [] => ""
  | s :: rest => s ++ strConcat rest

/-- The plan content as the amended specification words it: for each
manifest sibling, in manifest order, that has a non-empty relative path
passing the selection predicate, one entry whose URL is the resolve URL,
serialized per tool as the URL line, the parent-directory line, the
base-name line, the optional bearer header line and a blank separator line
(aria2c), or the bare URL line (wget). -/
def specPlanAmended (a : PlanArgs) (m : Manifest) : String :=
  strConcat (m.siblings.filterMap (fun s =>
    match siblingName s with
    | none => none
    | some f =>
      if selectFile a.incl a.excl f then some (entryLines a f)
      else none))

/- ### Gated-access check (hfd.py, check_authentication lines 97-109) -/

/-- The outcome of json.loads on the raw manifest text, at the granularity
check_authentication consumes it: the text parsed to a JSON object and its
gated field was truthy or not (an absent field defaults to false); the text
parsed to a valid JSON value that is not an object (a list, string, number,
boolean or null), on which the data.get call of hfd.py line 100 raises
AttributeError; or parsing raised JSONDecodeError. -/
inductive ParseOutcome
  | okDict (gatedTruthy : Bool)
  | okNonDict
  | err
deriving DecidableEq

/-- The observable behaviour of check_authentication: a normal return, the
sys.exit(1) with the authentication message, or the process dying on an
uncaught AttributeError (the except clause of hfd.py line 105 catches only
JSONDecodeError). -/
inductive AuthResult
  | ok
  | authExit
  | attrCrash
deriving DecidableEq

/-- Python substring containment, the in operator on strings. -/
def strContains (s sub : String) : Bool :=
  (findDrop sub.data s.data).isSome

/-- The literal scanned for in the fallback branch of check_authentication
(hfd.py line 106). -/
def gatedLiteral : String := "\"gated\":true"

/-- hfd.py lines 97-109.  When the text parses to an object, the function
exits with the authentication message iff the gated field is truthy and the
token or the username is missing (Python falsy: absent or empty).  When the
text parses to a non-object JSON value, the data.get call on line 100
raises AttributeError before any credential check; the except clause
catches only JSONDecodeError, so the process crashes.  On a parse error it
exits with the authentication message iff the raw text contains the gated
literal and the token or the username is missing; otherwise it returns
normally. -/
def check_authentication (outcome : ParseOutcome) (raw : String)
    (hf_username hf_token : Option String) : AuthResult :=
  match outcome with
  | .okDict gated =>
      if gated &&
          (decide (orEmpty hf_token = "") || decide (orEmpty hf_username = ""))
      then .authExit else .ok
  | .okNonDict => .attrCrash
  | .err =>
      if strContains raw gatedLiteral &&
          (decide (orEmpty hf_token = "") || decide (orEmpty hf_username = ""))
      then .authExit else .ok

/- ### Verifier (hfd.py, verify_files lines 179-187) -/

/-- hfd.py lines 179-187 over an explicit file system (byte length of each
local file, none when the file does not exist).  The result is none when
the loop raises KeyError on a sibling without an rfilename key; otherwise
it is some false when the first sibling with a truthy declared size whose
local file exists has a differing length, and some true when no
discrepancy is found. -/
def verify_files (fsize : String → Option Nat) : List Sibling → Option Bool
  | [] => some true
  | s :: rest =>
    match s.rfilename with
    | none => none
    | some name =>
      match s.size with
      | none => verify_files fsize rest
      | some sz =>
        if sz = 0 then verify_files fsize rest
        else
          match fsize name with
          | none => verify_files fsize rest
          | some n =>
            if n ≠ sz then some false else verify_files fsize rest

/- ### Retry Orchestrator (hfd.py, main lines 273-309) -/

/-- The observable outcome of the download phase of main: how many times
the external downloader was launched in total (the unconditional initial
launch of lines 273-281 plus the counted attempts of lines 285-309), how
many counted attempts the while loop performed, and the exit status of the
whole process (0 when main returns normally, 1 when it calls sys.exit(1)). -/
structure RunResult where
  invocations : Nat
  countedAttempts : Nat
  exitCode : Nat
deriving DecidableEq

/-- The while loop of hfd.py lines 287-309.  codes gives the exit status of
each downloader launch (codes 0 is the initial uncounted launch, codes k
the k-th counted attempt), maxRetries is the parsed --max_retries value (an
unvalidated Python int), attempt the loop counter.  The fuel argument only
bounds the structural recursion: each iteration increments attempt by one,
so fuel equal to the non-negative part of maxRetries minus attempt is
always enough and the zero-fuel branch is never reached from
runOrchestrator.  Returns the number of counted attempts performed and the
process exit status. -/
def retryFrom (codes : Nat → Int) (maxRetries : Int) (attempt : Nat) :
    Nat → Nat × Nat
  | 0 => (0, 0)
  | fuel + 1 =>
    if (attempt : Int) < maxRetries then
      let a := attempt + 1
      if codes a = 0 then (1, 0)
      else if (a : Int) = maxRetries then (1, 1)
      else
        let p := retryFrom codes maxRetries a fuel
        (p.1 + 1, p.2)
    else (0, 0)

/-- The download phase of main (hfd.py lines 273-309): one unconditional
launch whose exit status is never consulted, then the counted while loop.
When the loop breaks on a zero exit status or its condition fails, main
returns normally and the process exits with status 0.  verify_files is
defined by the source but never invoked anywhere in main, so no
verification result enters this outcome. -/
def runOrchestrator (codes : Nat → Int) (maxRetries : Int) : RunResult :=
  let r := retryFrom codes maxRetries 0 maxRetries.toNat
  { invocations := r.1 + 1, countedAttempts := r.1, exitCode := r.2 }

/- ### Concrete inputs used by individual claims -/

/-- Two parameter sets that differ in exactly one of the nine fingerprint
parameters, such that the differing parameter also serializes differently:
pattern lists are compared through their space-join and credentials through
the Python or-empty coercion, since those are the serialized forms the
fingerprint records. -/
def DiffOneSerialized (a b : Args) : Prop :=
  (a.repo_id ≠ b.repo_id ∧ a.tool = b.tool ∧ a.incl = b.incl ∧
    a.excl = b.excl ∧ a.dataset = b.dataset ∧ a.hf_username = b.hf_username ∧
    a.hf_token = b.hf_token ∧ a.hf_endpoint = b.hf_endpoint ∧
    a.revision = b.revision) ∨
  (a.tool ≠ b.tool ∧ a.repo_id = b.repo_id ∧ a.incl = b.incl ∧
    a.excl = b.excl ∧ a.dataset = b.dataset ∧ a.hf_username = b.hf_username ∧
    a.hf_token = b.hf_token ∧ a.hf_endpoint = b.hf_endpoint ∧
    a.revision = b.revision) ∨
  (joinSpace a.incl ≠ joinSpace b.incl ∧ a.repo_id = b.repo_id ∧
    a.tool = b.tool ∧ a.excl = b.excl ∧ a.dataset = b.dataset ∧
    a.hf_username = b.hf_username ∧ a.hf_token = b.hf_token ∧
    a.hf_endpoint = b.hf_endpoint ∧ a.revision = b.revision) ∨
  (joinSpace a.excl ≠ joinSpace b.excl ∧ a.repo_id = b.repo_id ∧
    a.tool = b.tool ∧ a.incl = b.incl ∧ a.dataset = b.dataset ∧
    a.hf_username = b.hf_username ∧ a.hf_token = b.hf_token ∧
    a.hf_endpoint = b.hf_endpoint ∧ a.revision = b.revision) ∨
  (a.dataset ≠ b.dataset ∧ a.repo_id = b.repo_id ∧ a.tool = b.tool ∧
    a.incl = b.incl ∧ a.excl = b.excl ∧ a.hf_username = b.hf_username ∧
    a.hf_token = b.hf_token ∧ a.hf_endpoint = b.hf_endpoint ∧
    a.revision = b.revision) ∨
  (orEmpty a.hf_username ≠ orEmpty b.hf_username ∧ a.repo_id = b.repo_id ∧
    a.tool = b.tool ∧ a.incl = b.incl ∧ a.excl = b.excl ∧
    a.dataset = b.dataset ∧ a.hf_token = b.hf_token ∧
    a.hf_endpoint = b.hf_endpoint ∧ a.revision = b.revision) ∨
  (orEmpty a.hf_token ≠ orEmpty b.hf_token ∧ a.repo_id = b.repo_id ∧
    a.tool = b.tool ∧ a.incl = b.incl ∧ a.excl = b.excl ∧
    a.dataset = b.dataset ∧ a.hf_username = b.hf_username ∧
    a.hf_endpoint = b.hf_endpoint ∧ a.revision = b.revision) ∨
  (a.hf_endpoint ≠ b.hf_endpoint ∧ a.repo_id = b.repo_id ∧ a.tool = b.tool ∧
    a.incl = b.incl ∧ a.excl = b.excl ∧ a.dataset = b.dataset ∧
    a.hf_username = b.hf_username ∧ a.hf_token = b.hf_token ∧
    a.revision = b.revision) ∨
  (a.revision ≠ b.revision ∧ a.repo_id = b.repo_id ∧ a.tool = b.tool ∧
    a.incl = b.incl ∧ a.excl = b.excl ∧ a.dataset = b.dataset ∧
    a.hf_username = b.hf_username ∧ a.hf_token = b.hf_token ∧
    a.hf_endpoint = b.hf_endpoint)

/-- A baseline parameter set for the fingerprint claims. -/
def c4Base : Args :=
  { repo_id := "gpt2", tool := "aria2c", incl := [], excl := [],
    dataset := false, hf_username := none, hf_token := none,
    hf_endpoint := "https://huggingface.co", revision := "main" }

/-- The baseline with the username option omitted on the command line. -/
def c4A : Args := c4Base

/-- The baseline with the username option passed as an empty string: a
different parameter set whose fingerprint nevertheless coincides with the
one of c4A. -/
def c4B : Args := { c4Base with hf_username := some "" }

/-- The baseline with a different revision. -/
def c4C : Args := { c4Base with revision := "dev" }

/-- The derived settings of the end-to-end scenario of the specification:
default endpoint, model download path, main revision, no token, aria2c
tool, no include patterns, one markdown exclude pattern. -/
def c6Args : PlanArgs :=
  { hf_endpoint := "https://huggingface.co", download_api_path := "org/repo",
    revision := "main", hf_token := none, tool := "aria2c",
    incl := [], excl := ["*.md"] }

/-- The manifest of the end-to-end scenario of the specification. -/
def c6Manifest : Manifest :=
  { gated := false,
    siblings := [ { rfilename := some "a.bin", size := some 10 },
                  { rfilename := some "README.md", size := none } ] }

/-- A manifest whose only sibling has an empty relative path. -/
def c6EmptyNameManifest : Manifest :=
  { gated := false, siblings := [ { rfilename := some "", size := some 5 } ] }

/-- The plan settings of the empty-path counterexample: no patterns at all,
so the selection predicate accepts every path. -/
def c6NoPatternArgs : PlanArgs :=
  { hf_endpoint := "https://huggingface.co", download_api_path := "org/repo",
    revision := "main", hf_token := none, tool := "aria2c",
    incl := [], excl := [] }

/-- The manifest of the verifier scenario: one file of declared size 10. -/
def c8Sibs : List Sibling := [ { rfilename := some "a.bin", size := some 10 } ]

/-- The local directory of the verifier scenario: a.bin exists but holds
only 5 bytes. -/
def c8Fs : String → Option Nat := fun n => if n = "a.bin" then some 5 else none

/- ### General lemmas about the string operations of the embedding -/

theorem strData_inj {s t : String} (h : s.data = t.data) : s = t := by
  cases s; cases t; simp_all

theorem strApp_right_cancel {x y t : String} (h : x ++ t = y ++ t) :
    x = y := by
  apply strData_inj
  have h2 := congrArg String.data h
  rw [String.data_append, String.data_append] at h2
  exact List.append_cancel_right h2

theorem strApp_left_cancel {t x y : String} (h : t ++ x = t ++ y) :
    x = y := by
  apply strData_inj
  have h2 := congrArg String.data h
  rw [String.data_append, String.data_append] at h2
  exact List.append_cancel_left h2

theorem prefixed_ne {n x y : String} (h : x ≠ y) : n ++ x ≠ n ++ y :=
  fun hc => h (strApp_left_cancel hc)

theorem joinSpace_cons (s : String) (r : List String) (h : r ≠ []) :
    joinSpace (s :: r) = s ++ " " ++ joinSpace r := by
  cases r with
  | nil => exact absurd rfl h
  | cons t rest => rfl

theorem joinSpace_head_ne {x y : String} (rest : List String) (h : x ≠ y) :
    joinSpace (x :: rest) ≠ joinSpace (y :: rest) := by
  cases rest with
  | nil => simpa [joinSpace] using h
  | cons t r =>
    rw [joinSpace_cons x (t :: r) (List.cons_ne_nil t r),
        joinSpace_cons y (t :: r) (List.cons_ne_nil t r)]
    exact fun hc => h (strApp_right_cancel (strApp_right_cancel hc))

theorem joinSpace_cons_ne (s : String) {x y : List String} (hx : x ≠ [])
    (hy : y ≠ []) (h : joinSpace x ≠ joinSpace y) :
    joinSpace (s :: x) ≠ joinSpace (s :: y) := by
  rw [joinSpace_cons s x hx, joinSpace_cons s y hy]
  exact fun hc => h (strApp_left_cancel hc)

theorem compiledEmpty_eq (pats : List String) :
    compiledEmpty pats = (decide (pats = []) || decide (pats = [""])) := by
  cases pats with
  | nil => simp [compiledEmpty]
  | cons p rest =>
    cases rest with
    | nil => by_cases h : p = "" <;> simp [compiledEmpty, h]
    | cons q r => simp [compiledEmpty]

/- ### Claim C1: file selection -/

/-- Claim C1 counterexample: with no include patterns, the exclude list
consisting of one empty pattern, and the path x, the code selects the file
(the exclude list compiles to an empty regex, which Python treats as
falsy), while the claimed formula deselects it (the exclude list is
non-empty and its empty pattern matches every path under unanchored regex
search). -/
theorem C1_counterexample :
    selectFile [] [""] "x" = true ∧ selectSpec [] [""] "x" = false := by
  decide

/-- Claim C1 (amended): a file is selected iff (the include list is empty,
or consists of exactly one empty pattern, or some include pattern matches)
and not (the exclude list is non-empty, different from the one-empty-pattern
list, and some exclude pattern matches); a pattern matches by
substring-anchored search after escaping all regex metacharacters except
the star, which matches any substring.  The one-empty-pattern list compiles
to an empty regex, which the code treats like an absent pattern list. -/
theorem C1_selection_amended (inc exc : List String) (p : String) :
    selectFile inc exc p = selectAmended inc exc p := by
  unfold selectFile selectAmended
  rw [compiledEmpty_eq inc, compiledEmpty_eq exc]
  cases anyPatternMatches inc p <;> cases anyPatternMatches exc p <;>
    cases hi1 : decide (inc = []) <;> cases hi2 : decide (inc = [""]) <;>
    cases he1 : decide (exc = []) <;> cases he2 : decide (exc = [""]) <;>
    simp_all

/- ### Claim C3: retry budget -/

/-- Claim C3: with a downloader failing on every invocation and
--max_retries 3, the orchestrator performs exactly 3 counted attempts after
the unconditional initial launch (4 launches in total) and the process
exits with status 1; with a downloader that succeeds on the 2nd counted
attempt, the process exits with status 0 after exactly 2 counted
attempts. -/
theorem C3_retry_budget :
    runOrchestrator (fun _ => 1) 3 =
      { invocations := 4, countedAttempts := 3, exitCode := 1 } ∧
    runOrchestrator (fun k => if k = 2 then 0 else 1) 3 =
      { invocations := 3, countedAttempts := 2, exitCode := 0 } := by
  decide

/- ### Claim C7: gated-access check -/

/-- Claim C7 counterexample: a raw text that is valid JSON but not an
object - here a list - has no truthy gated field and does not contain the
gated literal, so the claim places it among the cases that return
normally; the code instead raises AttributeError at the data.get call,
uncaught by the JSONDecodeError handler, and the process crashes without
either the normal return or the authentication exit. -/
theorem C7_counterexample :
    check_authentication ParseOutcome.okNonDict "[1,2]" none none =
      AuthResult.attrCrash ∧
    strContains "[1,2]" gatedLiteral = false := by
  decide

/-- Claim C7 (amended): check_authentication terminates the process with an
authentication error iff credentials are incomplete (the token or the
username is absent or empty) and either the manifest text parsed to a JSON
object with a truthy gated field, or parsing failed and the raw text
contains the literal substring quote-gated-quote-colon-true; it crashes
with an uncaught AttributeError, whatever the credentials, iff the text
parsed to a valid JSON value that is not an object; in every other case
(including malformed JSON without the literal) it returns normally. -/
theorem C7_gated_check_amended (outcome : ParseOutcome) (raw : String)
    (u t : Option String) :
    (check_authentication outcome raw u t = AuthResult.authExit ↔
      ((orEmpty t = "" ∨ orEmpty u = "") ∧
        (outcome = ParseOutcome.okDict true ∨
          (outcome = ParseOutcome.err ∧
            strContains raw gatedLiteral = true)))) ∧
    (check_authentication outcome raw u t = AuthResult.attrCrash ↔
      outcome = ParseOutcome.okNonDict) := by
  cases outcome with
  | okDict g =>
    cases g <;> by_cases ht : orEmpty t = "" <;>
      by_cases hu : orEmpty u = "" <;>
      simp [check_authentication, ht, hu]
  | okNonDict =>
    simp [check_authentication]
  | err =>
    by_cases ht : orEmpty t = "" <;> by_cases hu : orEmpty u = "" <;>
      by_cases hs : strContains raw gatedLiteral = true <;>
      simp [check_authentication, ht, hu, hs]

/- ### Claim C9: non-positive retry budget -/

/-- Claim C9: when --max_retries is parsed as zero or a negative integer,
the counted while loop performs zero attempts and main returns normally, so
the process exits with status 0 even though the initial unconditional
downloader launch exited nonzero. -/
theorem C9_nonpositive_retries (codes : Nat → Int) (mr : Int)
    (hmr : mr ≤ 0) (_hinit : codes 0 ≠ 0) :
    runOrchestrator codes mr =
      { invocations := 1, countedAttempts := 0, exitCode := 0 } := by
  unfold runOrchestrator
  have h0 : mr.toNat = 0 := by omega
  rw [h0]
  rfl

/-- Claim C9 witness: --max_retries 0 with an always-failing downloader. -/
theorem C9_witness :
    runOrchestrator (fun _ => 1) 0 =
      { invocations := 1, countedAttempts := 0, exitCode := 0 } :=
  C9_nonpositive_retries (fun _ => 1) 0 (le_refl 0) (by decide)

/- ### Claim C10: both credentials required -/

/-- Claim C10: for a repository whose manifest parses to an object with a
truthy gated field, check_authentication exits with status 1 as soon as
either the username or the token is absent or empty - in particular a
token supplied without a username - and returns normally when both are
supplied, even though only the token is ever placed in request headers and
plan entries. -/
theorem C10_both_credentials_required (raw : String) (u t : Option String) :
    (orEmpty u = "" ∨ orEmpty t = "" →
      check_authentication (ParseOutcome.okDict true) raw u t =
        AuthResult.authExit) ∧
    (orEmpty u ≠ "" → orEmpty t ≠ "" →
      check_authentication (ParseOutcome.okDict true) raw u t =
        AuthResult.ok) := by
  constructor
  · intro h
    rcases h with h | h <;> simp [check_authentication, h]
  · intro h1 h2
    simp [check_authentication, h1, h2]

/-- Claim C10 witness: a gated manifest with a token but no username makes
check_authentication exit. -/
theorem C10_witness :
    check_authentication (ParseOutcome.okDict true) "" none (some "tok") =
      AuthResult.authExit :=
  (C10_both_credentials_required "" none (some "tok")).1 (Or.inl rfl)

/- ### Lemmas about the retry loop -/

/-- If the first counted attempt that exits with status zero is attempt k,
within the budget, then the loop performs exactly k minus a further
attempts from loop counter a and the process exits with status 0. -/
theorem retryFrom_success (codes : Nat → Int) (mr : Int) (k : Nat) :
    ∀ (fuel a : Nat), a < k → (k : Int) ≤ mr →
      (∀ j, a < j → j < k → codes j ≠ 0) → codes k = 0 → k - a ≤ fuel →
      retryFrom codes mr a fuel = (k - a, 0) := by
  intro fuel
  induction fuel with
  | zero => intro a h1 _ _ _ h5; omega
  | succ f ih =>
    intro a h1 h2 h3 h4 h5
    have ha : (a : Int) < mr := by omega
    simp only [retryFrom, if_pos ha]
    by_cases hk : a + 1 = k
    · rw [hk, if_pos h4]
      have : k - a = 1 := by omega
      rw [this]
    · have hlt : a + 1 < k := by omega
      have hne : codes (a + 1) ≠ 0 := h3 (a + 1) (by omega) hlt
      rw [if_neg hne]
      have hmr : ¬ ((a + 1 : Nat) : Int) = mr := by omega
      rw [if_neg hmr]
      rw [ih (a + 1) hlt h2 (fun j hj1 hj2 => h3 j (by omega) hj2) h4
        (by omega)]
      have : k - (a + 1) + 1 = k - a := by omega
      rw [this]

/-- With a positive retry budget the counted loop performs at least one
attempt, whatever the exit statuses are. -/
theorem retryFrom_pos (codes : Nat → Int) (mr : Int) (h : 0 < mr) :
    1 ≤ (retryFrom codes mr 0 mr.toNat).1 := by
  obtain ⟨f, hf⟩ : ∃ f, mr.toNat = f + 1 := ⟨mr.toNat - 1, by omega⟩
  rw [hf]
  have h0 : ((0 : Nat) : Int) < mr := by omega
  simp only [retryFrom, if_pos h0]
  by_cases h1 : codes 1 = 0
  · rw [if_pos h1]
  · rw [if_neg h1]
    by_cases h2 : ((1 : Nat) : Int) = mr
    · rw [if_pos h2]
    · rw [if_neg h2]
      exact Nat.le_add_left 1 _

/- ### Claim C2: success stops the orchestrator -/

/-- Claim C2 counterexample: with a downloader that exits with status zero
on every launch, including the unconditional initial one, and the default
--max_retries of 1000000, the orchestrator still launches a second
downloader invocation (the first counted attempt): the initial launch's
exit status is never consulted, contradicting the claim that a zero-exit
invocation is followed by no further invocations. -/
theorem C2_counterexample :
    (runOrchestrator (fun _ => 0) 1000000).invocations = 2 := by
  decide

/-- Claim C2 (amended): for every counted invocation the claimed behaviour
holds: if the first counted attempt that exits with status zero is attempt
k within the budget, the orchestrator stops right there, with k counted
attempts, k+1 launches in total and process exit status 0, launching no
further invocations.  The initial unconditional launch's exit status is
ignored: whenever the budget is at least 1, at least one counted attempt
follows it regardless of its exit status. -/
theorem C2_counted_success_stops (codes : Nat → Int) (mr : Int) (k : Nat) :
    (1 ≤ k → (k : Int) ≤ mr → codes k = 0 →
      (∀ j, 1 ≤ j → j < k → codes j ≠ 0) →
      runOrchestrator codes mr =
        { invocations := k + 1, countedAttempts := k, exitCode := 0 }) ∧
    (1 ≤ mr → 1 ≤ (runOrchestrator codes mr).countedAttempts) := by
  constructor
  · intro h1 h2 h3 h4
    unfold runOrchestrator
    rw [retryFrom_success codes mr k mr.toNat 0 (by omega) h2
      (fun j hj1 hj2 => h4 j (by omega) hj2) h3 (by omega)]
    simp
  · intro h
    exact retryFrom_pos codes mr (by omega)

/-- Claim C2 witness: a downloader succeeding on its first counted attempt
under budget 5 stops after that attempt with exit status 0. -/
theorem C2_witness :
    runOrchestrator (fun _ => 0) 5 =
      { invocations := 2, countedAttempts := 1, exitCode := 0 } :=
  (C2_counted_success_stops (fun _ => 0) 5 1).1 (le_refl 1) (by decide) rfl
    (fun j hj1 hj2 => absurd (Nat.lt_of_lt_of_le hj2 hj1) (Nat.lt_irrefl j))

/- ### Claim C4: fingerprint determinism and sensitivity -/

/-- Claim C4 counterexample: two parameter sets that differ in a single
parameter - the username omitted versus passed as an empty string - yield
the same fingerprint, because the source serializes the username through
the Python or-empty coercion. -/
theorem C4_counterexample :
    c4A ≠ c4B ∧ generate_command_string c4A = generate_command_string c4B := by
  decide

/-- Claim C4 (amended): identical parameter sets yield identical
fingerprints, and two parameter sets that differ in exactly one parameter
yield different fingerprints provided the differing parameter's serialized
form differs: pattern lists enter the fingerprint through their space-join
and credentials through the or-empty coercion, so distinct parameter values
with equal serializations (a None credential versus an empty one, pattern
lists with the same space-join) collide. -/
theorem C4_fingerprint_amended (a b : Args) :
    (a = b → generate_command_string a = generate_command_string b) ∧
    (DiffOneSerialized a b →
      generate_command_string a ≠ generate_command_string b) := by
  constructor
  · intro h; rw [h]
  · intro h
    obtain ⟨r1, t1, i1, e1, d1, u1, k1, ep1, rv1⟩ := a
    obtain ⟨r2, t2, i2, e2, d2, u2, k2, ep2, rv2⟩ := b
    dsimp only [DiffOneSerialized] at h
    rcases h with ⟨h0, rfl, rfl, rfl, rfl, rfl, rfl, rfl, rfl⟩ |
      ⟨h0, rfl, rfl, rfl, rfl, rfl, rfl, rfl, rfl⟩ |
      ⟨h0, rfl, rfl, rfl, rfl, rfl, rfl, rfl, rfl⟩ |
      ⟨h0, rfl, rfl, rfl, rfl, rfl, rfl, rfl, rfl⟩ |
      ⟨h0, rfl, rfl, rfl, rfl, rfl, rfl, rfl, rfl⟩ |
      ⟨h0, rfl, rfl, rfl, rfl, rfl, rfl, rfl, rfl⟩ |
      ⟨h0, rfl, rfl, rfl, rfl, rfl, rfl, rfl, rfl⟩ |
      ⟨h0, rfl, rfl, rfl, rfl, rfl, rfl, rfl, rfl⟩ |
      ⟨h0, rfl, rfl, rfl, rfl, rfl, rfl, rfl, rfl⟩
    · exact joinSpace_head_ne _ (prefixed_ne h0)
    · exact joinSpace_cons_ne _ (by simp) (by simp)
        (joinSpace_head_ne _ (prefixed_ne h0))
    · exact joinSpace_cons_ne _ (by simp) (by simp)
        (joinSpace_cons_ne _ (by simp) (by simp)
          (joinSpace_head_ne _ (prefixed_ne h0)))
    · exact joinSpace_cons_ne _ (by simp) (by simp)
        (joinSpace_cons_ne _ (by simp) (by simp)
          (joinSpace_cons_ne _ (by simp) (by simp)
            (joinSpace_head_ne _ (prefixed_ne h0))))
    · have hds : (if d1 = true then "1" else "0") ≠
          (if d2 = true then "1" else "0") := by
        cases d1 <;> cases d2 <;> first | exact absurd rfl h0 | decide
      exact joinSpace_cons_ne _ (by simp) (by simp)
        (joinSpace_cons_ne _ (by simp) (by simp)
          (joinSpace_cons_ne _ (by simp) (by simp)
            (joinSpace_cons_ne _ (by simp) (by simp)
              (joinSpace_head_ne _ (prefixed_ne hds)))))
    · exact joinSpace_cons_ne _ (by simp) (by simp)
        (joinSpace_cons_ne _ (by simp) (by simp)
          (joinSpace_cons_ne _ (by simp) (by simp)
            (joinSpace_cons_ne _ (by simp) (by simp)
              (joinSpace_cons_ne _ (by simp) (by simp)
                (joinSpace_head_ne _ (prefixed_ne h0))))))
    · exact joinSpace_cons_ne _ (by simp) (by simp)
        (joinSpace_cons_ne _ (by simp) (by simp)
          (joinSpace_cons_ne _ (by simp) (by simp)
            (joinSpace_cons_ne _ (by simp) (by simp)
              (joinSpace_cons_ne _ (by simp) (by simp)
                (joinSpace_cons_ne _ (by simp) (by simp)
                  (joinSpace_head_ne _ (prefixed_ne h0)))))))
    · exact joinSpace_cons_ne _ (by simp) (by simp)
        (joinSpace_cons_ne _ (by simp) (by simp)
          (joinSpace_cons_ne _ (by simp) (by simp)
            (joinSpace_cons_ne _ (by simp) (by simp)
              (joinSpace_cons_ne _ (by simp) (by simp)
                (joinSpace_cons_ne _ (by simp) (by simp)
                  (joinSpace_cons_ne _ (by simp) (by simp)
                    (joinSpace_head_ne _ (prefixed_ne h0))))))))
    · exact joinSpace_cons_ne _ (by simp) (by simp)
        (joinSpace_cons_ne _ (by simp) (by simp)
          (joinSpace_cons_ne _ (by simp) (by simp)
            (joinSpace_cons_ne _ (by simp) (by simp)
              (joinSpace_cons_ne _ (by simp) (by simp)
                (joinSpace_cons_ne _ (by simp) (by simp)
                  (joinSpace_cons_ne _ (by simp) (by simp)
                    (joinSpace_cons_ne _ (by simp) (by simp)
                      (joinSpace_head_ne _ (prefixed_ne h0)))))))))

/-- Claim C4 witness: two parameter sets differing only in the revision
yield different fingerprints. -/
theorem C4_witness :
    generate_command_string c4Base ≠ generate_command_string c4C :=
  (C4_fingerprint_amended c4Base c4C).2
    (Or.inr (Or.inr (Or.inr (Or.inr (Or.inr (Or.inr (Or.inr (Or.inr
      ⟨by decide, rfl, rfl, rfl, rfl, rfl, rfl, rfl, rfl⟩))))))))

/- ### Claim C5: plan invalidation -/

/-- Claim C5 counterexample: invoking should_regenerate_filelist twice in a
row with an unchanged fingerprint, starting from a fresh directory, returns
true both times, not true then false: the function itself never creates the
plan file, and a missing plan file forces a true return on every call. -/
theorem C5_counterexample :
    (should_regenerate_filelist "REPO_ID=x"
      (should_regenerate_filelist "REPO_ID=x" freshState).2).1 = true := by
  decide

/-- Claim C5 (amended): should_regenerate_filelist returns true iff no
fingerprint record exists, or no plan file exists, or the stripped recorded
fingerprint differs from the current one; whenever it returns true the
record it persists (before any plan generation, which main performs only
after the call) is exactly the current fingerprint; whenever it returns
false it leaves the directory unchanged, the plan file exists and the
stripped record equals the current fingerprint; and for a fingerprint
without surrounding whitespace, running the full plan phase of main
(invalidation followed by plan generation on a true return) twice in a row
returns false on the second run, whatever the starting directory was. -/
theorem C5_invalidator_amended (current : String) (st : DirState) :
    ((should_regenerate_filelist current st).1 = true ↔
      (st.commandFile = none ∨ st.planFileExists = false ∨
        pyStrip (st.commandFile.getD "") ≠ current)) ∧
    ((should_regenerate_filelist current st).1 = true →
      (should_regenerate_filelist current st).2.commandFile = some current) ∧
    ((should_regenerate_filelist current st).1 = false →
      (should_regenerate_filelist current st).2 = st ∧
        st.planFileExists = true ∧
        pyStrip (st.commandFile.getD "") = current) ∧
    (pyStrip current = current →
      (planPhase current (planPhase current st).2).1 = false) := by
  obtain ⟨cf, pf⟩ := st
  cases pf with
  | false =>
    refine ⟨by simp [should_regenerate_filelist],
      by simp [should_regenerate_filelist],
      by simp [should_regenerate_filelist], ?_⟩
    intro hstrip
    simp [planPhase, should_regenerate_filelist, hstrip]
  | true =>
    cases cf with
    | none =>
      refine ⟨by simp [should_regenerate_filelist],
        by simp [should_regenerate_filelist],
        by simp [should_regenerate_filelist], ?_⟩
      intro hstrip
      simp [planPhase, should_regenerate_filelist, hstrip]
    | some c =>
      by_cases hc : current = pyStrip c
      · refine ⟨by simp [should_regenerate_filelist, hc],
          by simp [should_regenerate_filelist, hc],
          by simp [should_regenerate_filelist, hc], ?_⟩
        intro hstrip
        simp [planPhase, should_regenerate_filelist, hc, hstrip]
      · refine ⟨?_, by simp [should_regenerate_filelist, hc],
          by simp [should_regenerate_filelist, hc], ?_⟩
        · simp [should_regenerate_filelist, hc]
          exact fun h => hc h.symm
        · intro hstrip
          simp [planPhase, should_regenerate_filelist, hc, hstrip]

/-- Claim C5 witness: from a fresh directory, with a whitespace-free
fingerprint, the full plan phase returns false on its second run. -/
theorem C5_witness :
    (planPhase "REPO_ID=x" (planPhase "REPO_ID=x" freshState).2).1 = false :=
  (C5_invalidator_amended "REPO_ID=x" freshState).2.2.2 (by decide)

/- ### Claim C6: plan generation -/

/-- Claim C6 counterexample: a manifest sibling whose relative path is the
empty string passes the selection predicate when no patterns are given, yet
the generated plan is empty: the source drops siblings with a falsy
rfilename before filtering, so the claimed one-entry-per-passing-sibling
correspondence fails for it. -/
theorem C6_counterexample :
    selectFile [] [] "" = true ∧
    generate_file_list c6NoPatternArgs c6EmptyNameManifest = "" := by
  decide

theorem foldl_append_entries (g : String → String) (l : List String) :
    ∀ init : String,
      l.foldl (fun acc x => acc ++ g x) init = init ++ strConcat (l.map g) := by
  induction l with
  | nil => intro init; simp [strConcat, String.append_empty]
  | cons x rest ih =>
    intro init
    simp only [List.foldl_cons, List.map_cons, strConcat]
    rw [ih (init ++ g x), String.append_assoc]

theorem filterMap_fusion (a : PlanArgs) (sibs : List Sibling) :
    ((sibs.filterMap siblingName).filter
        (fun f => selectFile a.incl a.excl f)).map (entryLines a) =
      sibs.filterMap (fun s =>
        match siblingName s with
        | none => none
        | some f =>
          if selectFile a.incl a.excl f then some (entryLines a f)
          else none) := by
  induction sibs with
  | nil => rfl
  | cons s rest ih =>
    cases hn : siblingName s with
    | none => simp only [List.filterMap_cons, hn]; exact ih
    | some f =>
      simp only [List.filterMap_cons, hn]
      by_cases hf : selectFile a.incl a.excl f = true
      · simp [List.filter_cons, hf, ih]
      · simp [List.filter_cons, hf, ih]

/-- Claim C6 (amended): for every manifest and every setting, the plan
written by the structured branch of generate_file_list consists of exactly
one entry, in manifest order, for each sibling with a non-empty relative
path passing the selection predicate, with the resolve URL of the
specification, serialized per tool (URL, dir, out, optional bearer header
and blank separator lines for aria2c; one URL per line for wget); in the
end-to-end scenario (a.bin of size 10 plus README.md, exclude star-dot-md,
aria2c tool, no token) the plan holds exactly the one a.bin entry with the
correctly formed resolve URL. -/
theorem C6_plan_amended :
    (∀ (a : PlanArgs) (m : Manifest),
      generate_file_list a m = specPlanAmended a m) ∧
    generate_file_list c6Args c6Manifest =
      "https://huggingface.co/org/repo/resolve/main/a.bin\n  dir=\n  out=a.bin\n\n" := by
  constructor
  · intro a m
    show ((m.siblings.filterMap siblingName).filter
        (fun f => selectFile a.incl a.excl f)).foldl
          (fun acc file => acc ++ entryLines a file) "" = _
    rw [foldl_append_entries (entryLines a), String.empty_append]
    exact congrArg strConcat (filterMap_fusion a m.siblings)
  · decide

/- ### Claim C8: the Verifier is never invoked -/

/-- Claim C8 evaluation at the failing input: with a manifest declaring
a.bin at 10 bytes and a local a.bin of 5 bytes, verify_files would report
the file incomplete, yet the download phase of main, whose embedding
contains every statement of hfd.py lines 273-309, exits with status 0 after
a successful attempt: main never invokes verify_files (the function is
dead code), so the discrepancy goes unreported. -/
theorem C8_verifier_dead_code :
    verify_files c8Fs c8Sibs = some false ∧
    (runOrchestrator (fun _ => 0) 1000000).exitCode = 0 := by
  decide
